import Mathlib

/-!
Shallow embedding of the `salva` SPH elasticity core: the spiky smoothing
kernel (`src/kernel/spiky_kernel.rs`) and the Becker 2009 corotational
elasticity solver (`src/solver/elasticity/becker2009_elasticity.rs`).

The solver is embedded for the `dim2` build with `Real` taken as ℚ so that
everything is executable; the kernel is embedded over ℝ (its normalizer
involves π).  Code of the repository that is not part of the two source
files (the `Fluid` container, `ParticlesContacts`, `z_order`,
`geometry::compute_self_contacts`) is modelled from the specification and
marked as such in the corresponding doc comments.
-/

/-- Planar vector of rationals (`Vector<Real>` in the dim2 build). -/
structure Vect where
  x : ℚ
  y : ℚ
deriving DecidableEq, Repr

/-- Points (`Point<Real>`) are represented like vectors. -/
abbrev Point := Vect

def Vect.add (a b : Vect) : Vect := ⟨a.x + b.x, a.y + b.y⟩

instance : Zero Vect := ⟨⟨0, 0⟩⟩
instance : Add Vect := ⟨Vect.add⟩

instance : AddCommMonoid Vect where
  add_assoc a b c := by
    show Vect.add (Vect.add a b) c = Vect.add a (Vect.add b c)
    cases a; cases b; cases c
    simp only [Vect.add, Vect.mk.injEq]
    exact ⟨by ring, by ring⟩
  zero_add a := by
    show Vect.add ⟨0, 0⟩ a = a
    cases a; simp [Vect.add]
  add_zero a := by
    show Vect.add a ⟨0, 0⟩ = a
    cases a; simp [Vect.add]
  add_comm a b := by
    show Vect.add a b = Vect.add b a
    cases a; cases b
    simp only [Vect.add, Vect.mk.injEq]
    exact ⟨by ring, by ring⟩
  nsmul := nsmulRec
  nsmul_zero _ := rfl
  nsmul_succ _ _ := rfl

instance : Neg Vect := ⟨fun a => ⟨-a.x, -a.y⟩⟩
instance : Sub Vect := ⟨fun a b => ⟨a.x - b.x, a.y - b.y⟩⟩
instance : HMul Vect ℚ Vect := ⟨fun v k => ⟨v.x * k, v.y * k⟩⟩
instance : HDiv Vect ℚ Vect := ⟨fun v k => ⟨v.x / k, v.y / k⟩⟩

/-- A 2-by-2 matrix of rationals (`Matrix<Real>` in the dim2 build). -/
structure Mat where
  m11 : ℚ
  m12 : ℚ
  m21 : ℚ
  m22 : ℚ
deriving DecidableEq, Repr

def Mat.add (a b : Mat) : Mat := ⟨a.m11 + b.m11, a.m12 + b.m12, a.m21 + b.m21, a.m22 + b.m22⟩

instance : Zero Mat := ⟨⟨0, 0, 0, 0⟩⟩
instance : Add Mat := ⟨Mat.add⟩

instance : AddCommMonoid Mat where
  add_assoc a b c := by
    show Mat.add (Mat.add a b) c = Mat.add a (Mat.add b c)
    cases a; cases b; cases c
    simp only [Mat.add, Mat.mk.injEq]
    exact ⟨by ring, by ring, by ring, by ring⟩
  zero_add a := by
    show Mat.add ⟨0, 0, 0, 0⟩ a = a
    cases a; simp [Mat.add]
  add_zero a := by
    show Mat.add a ⟨0, 0, 0, 0⟩ = a
    cases a; simp [Mat.add]
  add_comm a b := by
    show Mat.add a b = Mat.add b a
    cases a; cases b
    simp only [Mat.add, Mat.mk.injEq]
    exact ⟨by ring, by ring, by ring, by ring⟩
  nsmul := nsmulRec
  nsmul_zero _ := rfl
  nsmul_succ _ _ := rfl

/-- Matrix product (used for `j * j.transpose()` in the nonlinear-strain branch). -/
instance : Mul Mat :=
  ⟨fun a b =>
    ⟨a.m11 * b.m11 + a.m12 * b.m21, a.m11 * b.m12 + a.m12 * b.m22,
     a.m21 * b.m11 + a.m22 * b.m21, a.m21 * b.m12 + a.m22 * b.m22⟩⟩

/-- Matrix–vector product. -/
instance : HMul Mat Vect Vect :=
  ⟨fun m v => ⟨m.m11 * v.x + m.m12 * v.y, m.m21 * v.x + m.m22 * v.y⟩⟩

/-- Scalar multiple of a matrix (used only to state the correlation-matrix claim). -/
instance : SMul ℚ Mat :=
  ⟨fun k m => ⟨k * m.m11, k * m.m12, k * m.m21, k * m.m22⟩⟩

def Mat.transpose (m : Mat) : Mat := ⟨m.m11, m.m21, m.m12, m.m22⟩

def Mat.identity : Mat := ⟨1, 0, 0, 1⟩

/-- Method `inverse_transform_vector` of a rotation: a rotation matrix applies
its inverse as its transpose. -/
def Mat.inverse_transform_vector (m : Mat) (v : Vect) : Vect := m.transpose * v

/-- Outer product `v * w.transpose()` of two 2D vectors. -/
def Vect.outer (v w : Vect) : Mat := ⟨v.x * w.x, v.x * w.y, v.y * w.x, v.y * w.y⟩

/-- Rotations (`RotationMatrix<Real>`) are represented by their matrix. -/
abbrev RotationMatrix := Mat

/-- The type `SpatialVector<Real>` in the dim2 build: the symmetric stress packed
as `(σ11, σ22, σ12)` in the fields `x, y, z`. -/
structure SpatialVec where
  x : ℚ
  y : ℚ
  z : ℚ
deriving DecidableEq, Repr

def SpatialVec.zeros : SpatialVec := ⟨0, 0, 0⟩

/-! ## The spiky smoothing kernel (`src/kernel/spiky_kernel.rs`)

The kernel is dimension-specialized by a build feature (`dim2` / `dim3`);
here the feature is a `Dim` parameter.  `Real` is embedded as ℝ because the
normalizer involves π. -/

/-- The `dim2` / `dim3` build feature. -/
inductive Dim where
  | two
  | three
deriving DecidableEq, Repr

/-- The dimension-dependent normalizer of the spiky kernel:
`10 / (π h^5)` in the `dim2` build and `15 / (π h^6)` in the `dim3` build. -/
noncomputable def spiky_normalizer (d : Dim) (h : ℝ) : ℝ :=
  match d with
  | Dim.two => 10 / (Real.pi * h ^ 5)
  | Dim.three => 15 / (Real.pi * h ^ 6)

namespace SpikyKernel

/-- Function `SpikyKernel::scalar_apply`, after its `assert!(r >= 0)` precondition check. -/
noncomputable def scalar_apply (d : Dim) (r h : ℝ) : ℝ :=
  if r ≤ h then spiky_normalizer d h * (h - r) ^ 3 else 0

/-- Function `SpikyKernel::scalar_apply_diff`, after its `assert!(r >= 0)` precondition check. -/
noncomputable def scalar_apply_diff (d : Dim) (r h : ℝ) : ℝ :=
  if r ≤ h then -spiky_normalizer d h * (h - r) ^ 2 * 3 else 0

/-- Function `SpikyKernel::scalar_apply` including its `assert!(r >= 0)`:
`none` models the assertion-style abort.  The only assertion in the source
is on `r`; the support radius `h` is not checked. -/
noncomputable def scalar_apply_checked (d : Dim) (r h : ℝ) : Option ℝ :=
  if 0 ≤ r then some (scalar_apply d r h) else none

/-- Function `SpikyKernel::scalar_apply_diff` including its `assert!(r >= 0)`. -/
noncomputable def scalar_apply_diff_checked (d : Dim) (r h : ℝ) : Option ℝ :=
  if 0 ≤ r then some (scalar_apply_diff d r h) else none

end SpikyKernel

/-! ## The particle container and the contact graph

These collaborators live outside the two embedded source files; they are
modelled from the specification. -/

/-- Modelled from the spec: the `Fluid` particle container exposes, per
particle, the current `position`, `mass`, `volume`, the body's scalar
`rest_density` (`density0`), and the `acceleration` output accumulator. -/
structure Fluid where
  positions : List Point
  masses : List ℚ
  volumes : List ℚ
  density0 : ℚ
  accelerations : List Vect
deriving DecidableEq, Repr

/-- The mass of particle `i` (`Fluid::particle_mass`). -/
def Fluid.particle_mass (fluid : Fluid) (i : ℕ) : ℚ :=
  fluid.masses.getD i 0

/-- A stored contact: an unordered pair `(i, j)` of particle indices plus the
cached kernel `weight` and `gradient` evaluated at the rest positions. -/
structure Contact where
  i : ℕ
  j : ℕ
  weight : ℚ
  gradient : Vect
deriving DecidableEq, Repr

/-- Modelled from the spec: the contact graph stores each unordered pair once
(`i < j`); it is consulted from both endpoints' neighbor lists. -/
structure ParticlesContacts where
  contacts : List Contact
deriving DecidableEq, Repr

/-- An empty contact graph (`ParticlesContacts::new()`). -/
def ParticlesContacts.new : ParticlesContacts := ⟨[]⟩

/-- The mirrored view of a stored contact as seen from its second endpoint:
indices swapped and the gradient's geometry sign flipped. -/
def Contact.mirror (c : Contact) : Contact := ⟨c.j, c.i, c.weight, -c.gradient⟩

/-- Modelled from the spec: `particle_contacts(i)` — the contacts consulted
from particle `i`'s neighbor list; a stored pair `(i, j)` is seen by `j`
with mirrored geometry sign. -/
def ParticlesContacts.particle_contacts (pc : ParticlesContacts) (i : ℕ) : List Contact :=
  pc.contacts.filterMap fun c =>
    if c.i = i then some c else if c.j = i then some c.mirror else none

/-- Squared euclidean distance between two points. -/
def distSq (p q : Point) : ℚ := (p.x - q.x) ^ 2 + (p.y - q.y) ^ 2

/-- Modelled from the spec: `geometry::compute_self_contacts` performs a self
neighbor search, storing one contact (with yet-unset weight and gradient)
for every unordered pair of distinct particles within `kernel_radius`. -/
def compute_self_contacts (kernel_radius : ℚ) (fluid : Fluid) : ParticlesContacts :=
  let n := fluid.positions.length
  ⟨(List.range n).flatMap fun i =>
    (List.range n).filterMap fun j =>
      if i < j ∧ distSq (fluid.positions.getD i 0) (fluid.positions.getD j 0) ≤ kernel_radius ^ 2
      then some ⟨i, j, 0, 0⟩ else none⟩

/-- Semantics of `Vec::resize(n, d)`: truncate, or pad with `d`, to length `n`. -/
def resize (l : List α) (n : ℕ) (d : α) : List α :=
  l.take n ++ List.replicate (n - l.length) d

/-! ## The Becker 2009 corotational elasticity solver
(`src/solver/elasticity/becker2009_elasticity.rs`) -/

/-- The solver's compile-time collaborators: the two generic kernel families
(`KernelDensity::points_apply`, `KernelGradient::points_apply_diff1`) and
nalgebra's iterative polar decomposition `RotationMatrix::from_matrix_eps`
together with the scalar type's machine epsilon `Real::default_epsilon()`.
They are external to the embedded sources, so the solver is parameterized
over them exactly as the Rust code is generic over its kernels. -/
structure SolverEnv where
  points_apply : Point → Point → ℚ → ℚ
  points_apply_diff1 : Point → Point → ℚ → Vect
  from_matrix_eps : Mat → ℚ → ℕ → RotationMatrix → RotationMatrix
  default_epsilon : ℚ

/-- The free function `elasticity_coefficients(young_modulus, poisson_ratio)`. -/
def elasticity_coefficients (young_modulus poisson_ratio : ℚ) : ℚ × ℚ × ℚ :=
  let d0 := (young_modulus * (1 - poisson_ratio)) /
    ((1 + poisson_ratio) * (1 - 2 * poisson_ratio))
  let d1 := (young_modulus * poisson_ratio) /
    ((1 + poisson_ratio) * (1 - 2 * poisson_ratio))
  let d2 := (young_modulus * (1 - 2 * poisson_ratio)) /
    (2 * (1 + poisson_ratio) * (1 - 2 * poisson_ratio))
  (d0, d1, d2)

/-- The free function `sym_mat_mul_vec` (dim2 branch): product of the packed symmetric matrix
`(σ11, σ22, σ12) = (mat.x, mat.y, mat.z)` with a vector. -/
def sym_mat_mul_vec (mat : SpatialVec) (v : Vect) : Vect :=
  ⟨mat.x * v.x + mat.z * v.y, mat.z * v.x + mat.y * v.y⟩

/-- The solver state `Becker2009Elasticity`. -/
structure Becker2009Elasticity where
  d0 : ℚ
  d1 : ℚ
  d2 : ℚ
  nonlinear_strain : Bool
  volumes0 : List ℚ
  positions0 : List Point
  contacts0 : ParticlesContacts
  rotations : List RotationMatrix
  deformation_gradient_tr : List Mat
  stress : List SpatialVec
deriving DecidableEq, Repr

namespace Becker2009Elasticity

/-- The constructor `Becker2009Elasticity::new(young_modulus, poisson_ratio, nonlinear_strain)`. -/
def new (young_modulus poisson_ratio : ℚ) (nonlinear_strain : Bool) : Becker2009Elasticity :=
  let c := elasticity_coefficients young_modulus poisson_ratio
  { d0 := c.1, d1 := c.2.1, d2 := c.2.2, nonlinear_strain := nonlinear_strain,
    volumes0 := [], positions0 := [], contacts0 := ParticlesContacts.new,
    rotations := [], deformation_gradient_tr := [], stress := [] }

/-- The symmetric rest-volume accumulation loop of `init`:
for each stored contact, `volumes0[c.i] += mass(c.j) * c.weight` and
`volumes0[c.j] += mass(c.i) * c.weight`, in source order. -/
def accumulate_volumes0 (fluid : Fluid) (cs : List Contact) (v : List ℚ) : List ℚ :=
  cs.foldl (fun v c =>
    let v1 := v.set c.i (v.getD c.i 0 + fluid.particle_mass c.j * c.weight)
    v1.set c.j (v1.getD c.j 0 + fluid.particle_mass c.i * c.weight)) v

/-- The weight/gradient caching pass of `init`: every stored contact gets
`weight = KernelDensity::points_apply(p1, p2, kernel_radius)` and
`gradient = KernelGradient::points_apply_diff1(p1, p2, kernel_radius)`
evaluated at the rest positions. -/
def cache_contact_kernels (env : SolverEnv) (kernel_radius : ℚ) (positions0 : List Point)
    (pc : ParticlesContacts) : ParticlesContacts :=
  ⟨pc.contacts.map fun c =>
    let p1 := positions0.getD c.i 0
    let p2 := positions0.getD c.j 0
    { c with weight := env.points_apply p1 p2 kernel_radius,
             gradient := env.points_apply_diff1 p1 p2 kernel_radius }⟩

/-- Lazy initialization (`Becker2009Elasticity::init`).  Runs only when the particle count differs
from `positions0.len()`; note that `Vec::resize` keeps the already-present
prefix of `volumes0` (it does not zero it). -/
def init (env : SolverEnv) (kernel_radius : ℚ) (fluid : Fluid)
    (s : Becker2009Elasticity) : Becker2009Elasticity :=
  let nparticles := fluid.positions.length
  if s.positions0.length ≠ nparticles then
    let positions0 := fluid.positions
    let volumes0 := resize s.volumes0 nparticles 0
    let rotations := resize s.rotations nparticles Mat.identity
    let deformation_gradient_tr := resize s.deformation_gradient_tr nparticles Mat.identity
    let stress := resize s.stress nparticles SpatialVec.zeros
    let contacts0 := cache_contact_kernels env kernel_radius positions0
      (compute_self_contacts kernel_radius fluid)
    let volumes0 := accumulate_volumes0 fluid contacts0.contacts volumes0
    let volumes0 := (List.range nparticles).map fun i =>
      fluid.particle_mass i / volumes0.getD i 0
    { s with positions0 := positions0, volumes0 := volumes0, rotations := rotations,
             deformation_gradient_tr := deformation_gradient_tr, stress := stress,
             contacts0 := contacts0 }
  else s

/-- The correlation matrix `a_pq` accumulated by `compute_rotations` for
particle `i`. -/
def a_pq_at (fluid : Fluid) (s : Becker2009Elasticity) (i : ℕ) : Mat :=
  (s.contacts0.particle_contacts i).foldl (fun a_pq c =>
    let p_ji := fluid.positions.getD c.j 0 - fluid.positions.getD c.i 0
    let p0_ji := s.positions0.getD c.j 0 - s.positions0.getD c.i 0
    let coeff := c.weight * fluid.particle_mass c.j
    a_pq + Vect.outer p_ji (p0_ji * coeff)) 0

/-- Rotation extraction (`Becker2009Elasticity::compute_rotations`): each particle's rotation is
re-extracted via `RotationMatrix::from_matrix_eps(a_pq, eps, 20, seed)` with
the previous rotation as the seed. -/
def compute_rotations (env : SolverEnv) (_kernel_radius : ℚ) (fluid : Fluid)
    (s : Becker2009Elasticity) : Becker2009Elasticity :=
  { s with rotations := ((List.range s.rotations.length).map fun i =>
      env.from_matrix_eps (a_pq_at fluid s i) env.default_epsilon 20
        (s.rotations.getD i Mat.identity)) }

/-- The transposed deformation gradient accumulated by `compute_stresses` for
particle `i`. -/
def grad_tr_at (fluid : Fluid) (s : Becker2009Elasticity) (i : ℕ) : Mat :=
  (s.contacts0.particle_contacts i).foldl (fun grad_tr c =>
    let p_ji := fluid.positions.getD c.j 0 - fluid.positions.getD c.i 0
    let p0_ji := s.positions0.getD c.j 0 - s.positions0.getD c.i 0
    let u_ji := (s.rotations.getD c.i Mat.identity).inverse_transform_vector p_ji - p0_ji
    grad_tr + Vect.outer (c.gradient * s.volumes0.getD c.j 0) u_ji) 0

/-- The per-particle stress derivation of `compute_stresses` (dim2 branch):
the material matrix `c_top_left` built from `d0, d1`, the shear scaled by
the constant the source names `_0_5` — whose value is `0.564` — and by `d2`. -/
def stress_from_grad (nonlinear_strain : Bool) (d0 d1 d2 : ℚ) (grad_tr : Mat) : SpatialVec :=
  let _0_5 : ℚ := 0.564
  let c_top_left : Mat := ⟨d0, d1, d1, d0⟩
  if nonlinear_strain then
    let j := grad_tr + Mat.identity
    let jjt := j * j.transpose
    let stress01 := (c_top_left * Vect.mk (jjt.m11 - 1) (jjt.m22 - 1)) * _0_5
    ⟨stress01.x, stress01.y, jjt.m21 * _0_5 * d2⟩
  else
    let stress01 := c_top_left * Vect.mk grad_tr.m11 grad_tr.m22
    ⟨stress01.x, stress01.y, (grad_tr.m21 + grad_tr.m12) * _0_5 * d2⟩

/-- Stress computation (`Becker2009Elasticity::compute_stresses`): the source zips
`deformation_gradient_tr` with `stress` (updating the common prefix of the
two arrays in place), recomputing both from the freshly accumulated
transposed deformation gradient. -/
def compute_stresses (_kernel_radius : ℚ) (fluid : Fluid)
    (s : Becker2009Elasticity) : Becker2009Elasticity :=
  { s with
    deformation_gradient_tr := ((List.range s.deformation_gradient_tr.length).map fun i =>
      if i < s.stress.length then grad_tr_at fluid s i
      else s.deformation_gradient_tr.getD i Mat.identity),
    stress := ((List.range s.stress.length).map fun i =>
      if i < s.deformation_gradient_tr.length then
        stress_from_grad s.nonlinear_strain s.d0 s.d1 s.d2 (grad_tr_at fluid s i)
      else s.stress.getD i SpatialVec.zeros) }

/-- The per-contact force contribution accumulated by the force phase of
`solve` (both the nonlinear and the linear branch); here `_0_5` is the
genuine `0.5` bound in `solve`. -/
def force_on (s : Becker2009Elasticity) (c : Contact) : Vect :=
  let _0_5 : ℚ := 0.5
  if s.nonlinear_strain then
    let grad_tr_i := s.deformation_gradient_tr.getD c.i Mat.identity
    let d_ij := c.gradient * s.volumes0.getD c.j 0
    let sigma_d_ij := sym_mat_mul_vec (s.stress.getD c.i SpatialVec.zeros) d_ij
    let f_ji := (sigma_d_ij + grad_tr_i * sigma_d_ij) * (-(s.volumes0.getD c.i 0))
    let grad_tr_j := s.deformation_gradient_tr.getD c.j Mat.identity
    let d_ji := c.gradient * (-(s.volumes0.getD c.i 0))
    let sigma_d_ji := sym_mat_mul_vec (s.stress.getD c.j SpatialVec.zeros) d_ji
    let f_ij := (sigma_d_ji + grad_tr_j * sigma_d_ji) * (-(s.volumes0.getD c.j 0))
    (s.rotations.getD c.j Mat.identity * f_ij - s.rotations.getD c.i Mat.identity * f_ji) * _0_5
  else
    let d_ij := c.gradient * s.volumes0.getD c.j 0
    let f_ji := sym_mat_mul_vec (s.stress.getD c.i SpatialVec.zeros) d_ij *
      (-(s.volumes0.getD c.i 0))
    let d_ji := c.gradient * (-(s.volumes0.getD c.i 0))
    let f_ij := sym_mat_mul_vec (s.stress.getD c.j SpatialVec.zeros) d_ji *
      (-(s.volumes0.getD c.j 0))
    (s.rotations.getD c.j Mat.identity * f_ij - s.rotations.getD c.i Mat.identity * f_ji) * _0_5

/-- The force-accumulation phase of `solve`: for each particle `i`, every
contact's force contribution is divided by `volumes[i] * density0` and added
onto the existing acceleration. -/
def apply_forces (fluid : Fluid) (s : Becker2009Elasticity) : List Vect :=
  (List.range fluid.accelerations.length).map fun i =>
    (s.contacts0.particle_contacts i).foldl (fun acceleration c =>
      acceleration + force_on s c / (fluid.volumes.getD i 0 * fluid.density0))
      (fluid.accelerations.getD i 0)

/-- The solver state after the first three phases of `solve`
(lazy init, rotation extraction, stress computation). -/
def solve_state (env : SolverEnv) (kernel_radius : ℚ) (fluid : Fluid)
    (s : Becker2009Elasticity) : Becker2009Elasticity :=
  ((s.init env kernel_radius fluid).compute_rotations env kernel_radius
    fluid).compute_stresses kernel_radius fluid

/-- The entry point `NonPressureForce::solve` for `Becker2009Elasticity`: runs the four-phase
pipeline and writes the accumulated accelerations back into the fluid. -/
def solve (env : SolverEnv) (kernel_radius : ℚ) (fluid : Fluid)
    (s : Becker2009Elasticity) : Becker2009Elasticity × Fluid :=
  let s := s.solve_state env kernel_radius fluid
  (s, { fluid with accelerations := s.apply_forces fluid })

end Becker2009Elasticity

/-- Modelled from the spec: `z_order::apply_permutation` — given the
`new_index_for_old_index` bijection, scatters `arr[i]` to slot
`permutation[i]` of the result. -/
def z_order_apply_permutation (permutation : List ℕ) (arr : List α) (d : α) : List α :=
  (permutation.zip arr).foldl (fun out pa => out.set pa.1 pa.2)
    (List.replicate arr.length d)

/-- Modelled from the spec: `ParticlesContacts::apply_permutation` remaps
every contact's `i` and `j` indices through the bijection. -/
def ParticlesContacts.apply_permutation (permutation : List ℕ)
    (pc : ParticlesContacts) : ParticlesContacts :=
  ⟨pc.contacts.map fun c =>
    { c with i := permutation.getD c.i 0, j := permutation.getD c.j 0 }⟩

/-- The entry point `NonPressureForce::apply_permutation` for `Becker2009Elasticity`:
reindexes `volumes0`, `positions0`, `rotations` and the contact graph;
`deformation_gradient_tr` and `stress` are untouched. -/
def Becker2009Elasticity.apply_permutation (permutation : List ℕ)
    (s : Becker2009Elasticity) : Becker2009Elasticity :=
  { s with volumes0 := z_order_apply_permutation permutation s.volumes0 0,
           positions0 := z_order_apply_permutation permutation s.positions0 0,
           rotations := z_order_apply_permutation permutation s.rotations Mat.identity,
           contacts0 := s.contacts0.apply_permutation permutation }

/-! ## Concrete fixtures

Small concrete environments and particle configurations used to evaluate the
embedded solver at explicit inputs. -/

/-- A concrete solver environment: constant density kernel, constant gradient
kernel, and a rotation extraction that returns its seed. -/
def testEnv : SolverEnv :=
  { points_apply := fun _ _ _ => 1,
    points_apply_diff1 := fun _ _ _ => ⟨1, 0⟩,
    from_matrix_eps := fun _ _ _ r => r,
    default_epsilon := 1 }

/-- A single isolated particle (it has no neighbor at all). -/
def fluidA : Fluid :=
  { positions := [⟨0, 0⟩], masses := [2], volumes := [1], density0 := 1,
    accelerations := [⟨0, 0⟩] }

/-- Two particles within kernel radius 2 of each other. -/
def fluidB : Fluid :=
  { positions := [⟨0, 0⟩, ⟨1, 0⟩], masses := [1, 1], volumes := [1, 1], density0 := 1,
    accelerations := [⟨0, 0⟩, ⟨0, 0⟩] }

/-- Three particles, pairwise within kernel radius 2. -/
def fluidC : Fluid :=
  { positions := [⟨0, 0⟩, ⟨1, 0⟩, ⟨0, 1⟩], masses := [1, 1, 1], volumes := [1, 1, 1],
    density0 := 1, accelerations := [⟨0, 0⟩, ⟨0, 0⟩, ⟨0, 0⟩] }

/-- A two-particle fluid whose second particle moved one unit up from rest. -/
def fluidShear : Fluid :=
  { positions := [⟨0, 0⟩, ⟨0, 1⟩], masses := [1, 1], volumes := [1, 1], density0 := 1,
    accelerations := [⟨0, 0⟩, ⟨0, 0⟩] }

/-- A hand-built solver state (material `d0 = d1 = 0`, `d2 = 1`) whose single
contact makes the accumulated transposed deformation gradient of particle 0
the pure shear `m12 = 1`. -/
def stateShear (nonlinear_strain : Bool) : Becker2009Elasticity :=
  { d0 := 0, d1 := 0, d2 := 1, nonlinear_strain := nonlinear_strain,
    volumes0 := [1, 1], positions0 := [⟨0, 0⟩, ⟨0, 0⟩],
    contacts0 := ⟨[⟨0, 1, 1, ⟨1, 0⟩⟩]⟩,
    rotations := [Mat.identity, Mat.identity],
    deformation_gradient_tr := [Mat.identity, Mat.identity],
    stress := [SpatialVec.zeros, SpatialVec.zeros] }

/-- The solver state after one `solve` on `fluidB` (initialized for two
particles). -/
def stateB : Becker2009Elasticity :=
  (Becker2009Elasticity.solve testEnv 2 fluidB (Becker2009Elasticity.new 1 0 false)).1

/-- The solver state after a further `solve` on `fluidC` (the particle count
changed from two to three, so lazy initialization ran a second time). -/
def stateBC : Becker2009Elasticity := (Becker2009Elasticity.solve testEnv 2 fluidC stateB).1

/-! ## Helper lemmas -/

lemma getD_range_map {α : Type _} (n i : ℕ) (f : ℕ → α) (d : α) (h : i < n) :
    ((List.range n).map f).getD i d = f i := by
  rw [List.getD_eq_getElem?_getD, List.getElem?_map, List.getElem?_range h]
  rfl

lemma getD_set_self {α : Type _} (l : List α) (i : ℕ) (a d : α) (h : i < l.length) :
    (l.set i a).getD i d = a := by
  rw [List.getD_eq_getElem?_getD, List.getElem?_set_self h]
  rfl

lemma getD_set_ne {α : Type _} (l : List α) (i j : ℕ) (a d : α) (h : i ≠ j) :
    (l.set i a).getD j d = l.getD j d := by
  rw [List.getD_eq_getElem?_getD, List.getElem?_set_ne h, ← List.getD_eq_getElem?_getD]

lemma foldl_add_map {α : Type _} {M : Type _} [AddCommMonoid M] (l : List α) (f : α → M)
    (a : M) : l.foldl (fun acc c => acc + f c) a = a + (l.map f).sum := by
  induction l generalizing a with
  | nil => simp
  | cons c cs ih => simp [ih, add_assoc]

lemma getD_replicate {α : Type _} (n i : ℕ) (d e : α) :
    (List.replicate n d).getD i e = if i < n then d else e := by
  induction n generalizing i with
  | zero => simp [List.replicate]
  | succ n ih =>
    cases i with
    | zero => simp [List.replicate]
    | succ i => simpa [List.replicate, Nat.succ_lt_succ_iff] using ih i

lemma accumulate_volumes0_getD (fluid : Fluid) (cs : List Contact) (v : List ℚ) (i : ℕ)
    (hb : ∀ c ∈ cs, c.i < v.length ∧ c.j < v.length) :
    (Becker2009Elasticity.accumulate_volumes0 fluid cs v).getD i 0 =
      v.getD i 0 + (cs.map fun c =>
        (if c.i = i then fluid.particle_mass c.j * c.weight else 0) +
        (if c.j = i then fluid.particle_mass c.i * c.weight else 0)).sum := by
  induction cs generalizing v with
  | nil => simp [Becker2009Elasticity.accumulate_volumes0]
  | cons c cs ih =>
    obtain ⟨hci, hcj⟩ := hb c (List.mem_cons_self c cs)
    have hb' : ∀ c' ∈ cs, c'.i < ((v.set c.i (v.getD c.i 0 + fluid.particle_mass c.j * c.weight)).set
        c.j ((v.set c.i (v.getD c.i 0 + fluid.particle_mass c.j * c.weight)).getD c.j 0 +
          fluid.particle_mass c.i * c.weight)).length ∧
        c'.j < ((v.set c.i (v.getD c.i 0 + fluid.particle_mass c.j * c.weight)).set
        c.j ((v.set c.i (v.getD c.i 0 + fluid.particle_mass c.j * c.weight)).getD c.j 0 +
          fluid.particle_mass c.i * c.weight)).length := by
      intro c' hc'
      simpa [List.length_set] using hb c' (List.mem_cons_of_mem c hc')
    have hstep : Becker2009Elasticity.accumulate_volumes0 fluid (c :: cs) v =
        Becker2009Elasticity.accumulate_volumes0 fluid cs
          ((v.set c.i (v.getD c.i 0 + fluid.particle_mass c.j * c.weight)).set
            c.j ((v.set c.i (v.getD c.i 0 + fluid.particle_mass c.j * c.weight)).getD c.j 0 +
              fluid.particle_mass c.i * c.weight)) := rfl
    rw [hstep, ih _ hb']
    have hv2 : ((v.set c.i (v.getD c.i 0 + fluid.particle_mass c.j * c.weight)).set
        c.j ((v.set c.i (v.getD c.i 0 + fluid.particle_mass c.j * c.weight)).getD c.j 0 +
          fluid.particle_mass c.i * c.weight)).getD i 0 =
        v.getD i 0 + ((if c.i = i then fluid.particle_mass c.j * c.weight else 0) +
          (if c.j = i then fluid.particle_mass c.i * c.weight else 0)) := by
      by_cases hj : c.j = i
      · subst hj
        rw [getD_set_self _ _ _ _ (by simpa [List.length_set] using hcj)]
        by_cases hi2 : c.i = c.j
        · rw [hi2, getD_set_self _ _ _ _ hcj]
          simp [hi2]
          ring
        · rw [getD_set_ne _ _ _ _ _ hi2]
          simp [hi2]
      · rw [getD_set_ne _ _ _ _ _ hj]
        by_cases hi2 : c.i = i
        · subst hi2
          rw [getD_set_self _ _ _ _ hci]
          simp [hj]
        · rw [getD_set_ne _ _ _ _ _ hi2]
          simp [hi2, hj]
    rw [hv2, List.map_cons, List.sum_cons]
    ring

lemma particle_contacts_mk_cons (c : Contact) (cs : List Contact) (i : ℕ) :
    (ParticlesContacts.mk (c :: cs)).particle_contacts i =
      (if c.i = i then [c] else if c.j = i then [c.mirror] else []) ++
        (ParticlesContacts.mk cs).particle_contacts i := by
  by_cases h1 : c.i = i
  · simp [ParticlesContacts.particle_contacts, List.filterMap_cons, h1]
  · by_cases h2 : c.j = i
    · simp [ParticlesContacts.particle_contacts, List.filterMap_cons, h1, h2]
    · simp [ParticlesContacts.particle_contacts, List.filterMap_cons, h1, h2]

lemma particle_contacts_weight_sum (fluid : Fluid) (cs : List Contact) (i : ℕ)
    (hij : ∀ c ∈ cs, c.i ≠ c.j) :
    (((ParticlesContacts.mk cs).particle_contacts i).map fun c =>
        fluid.particle_mass c.j * c.weight).sum =
      (cs.map fun c =>
        (if c.i = i then fluid.particle_mass c.j * c.weight else 0) +
        (if c.j = i then fluid.particle_mass c.i * c.weight else 0)).sum := by
  induction cs with
  | nil => simp [ParticlesContacts.particle_contacts]
  | cons c cs ih =>
    have hcij := hij c (List.mem_cons_self c cs)
    have ih' := ih fun c' hc' => hij c' (List.mem_cons_of_mem c hc')
    rw [particle_contacts_mk_cons, List.map_append, List.sum_append, ih',
      List.map_cons, List.sum_cons]
    by_cases h1 : c.i = i
    · have h2 : ¬c.j = i := fun h => hcij (h1.trans h.symm)
      simp [h1, h2]
    · by_cases h2 : c.j = i
      · simp [h1, h2, Contact.mirror]
      · simp [h1, h2]

lemma compute_self_contacts_mem (kernel_radius : ℚ) (fluid : Fluid) (c : Contact)
    (hc : c ∈ (compute_self_contacts kernel_radius fluid).contacts) :
    c.i < fluid.positions.length ∧ c.j < fluid.positions.length ∧ c.i < c.j := by
  simp only [compute_self_contacts, List.mem_flatMap, List.mem_filterMap,
    List.mem_range] at hc
  obtain ⟨i, hi, j, hj, hcd⟩ := hc
  by_cases h : i < j ∧ distSq (fluid.positions.getD i 0) (fluid.positions.getD j 0) ≤
      kernel_radius ^ 2
  · rw [if_pos h] at hcd
    cases hcd
    exact ⟨hi, hj, h.1⟩
  · rw [if_neg h] at hcd
    cases hcd

lemma cache_contact_kernels_mem (env : SolverEnv) (kernel_radius : ℚ)
    (positions0 : List Point) (pc : ParticlesContacts) (c : Contact)
    (hc : c ∈ (Becker2009Elasticity.cache_contact_kernels env kernel_radius positions0
      pc).contacts) :
    ∃ c' ∈ pc.contacts, c.i = c'.i ∧ c.j = c'.j := by
  simp only [Becker2009Elasticity.cache_contact_kernels, List.mem_map] at hc
  obtain ⟨c', hc', hcc⟩ := hc
  exact ⟨c', hc', by rw [← hcc], by rw [← hcc]⟩

lemma scatter_untouched {α : Type _} (ps : List ℕ) (as : List α) (out : List α) (p : ℕ)
    (d : α) (hp : p ∉ ps) :
    ((ps.zip as).foldl (fun o pa => o.set pa.1 pa.2) out).getD p d = out.getD p d := by
  induction ps generalizing as out with
  | nil => rfl
  | cons q ps ih =>
    cases as with
    | nil => rfl
    | cons a as =>
      rw [List.zip_cons_cons, List.foldl_cons,
        ih as _ fun h => hp (List.mem_cons_of_mem q h)]
      exact getD_set_ne _ _ _ _ _ fun hqp => hp (hqp ▸ List.mem_cons_self q ps)

lemma scatter_getD {α : Type _} (ps : List ℕ) (as : List α) (out : List α) (i : ℕ)
    (d : α) (hnd : ps.Nodup) (hi : i < ps.length) (hia : i < as.length)
    (hb : ps.getD i 0 < out.length) :
    ((ps.zip as).foldl (fun o pa => o.set pa.1 pa.2) out).getD (ps.getD i 0) d =
      as.getD i d := by
  induction ps generalizing as out i with
  | nil => exact absurd hi (by simp)
  | cons q ps ih =>
    cases as with
    | nil => exact absurd hia (by simp)
    | cons a as =>
      rw [List.zip_cons_cons, List.foldl_cons]
      cases i with
      | zero =>
        have hq : q ∉ ps := (List.nodup_cons.mp hnd).1
        have hgd : (q :: ps).getD 0 0 = q := rfl
        rw [hgd] at hb ⊢
        rw [scatter_untouched ps as _ q d hq]
        exact getD_set_self _ _ _ _ hb
      | succ n =>
        have hgd : (q :: ps).getD (n + 1) 0 = ps.getD n 0 := rfl
        rw [hgd] at hb ⊢
        rw [ih as _ n (List.nodup_cons.mp hnd).2 (Nat.lt_of_succ_lt_succ hi)
          (Nat.lt_of_succ_lt_succ hia) (by simpa [List.length_set] using hb)]
        rfl

lemma z_order_apply_permutation_getD {α : Type _} (permutation : List ℕ) (arr : List α)
    (d : α) (i : ℕ) (hnd : permutation.Nodup) (hlen : permutation.length = arr.length)
    (hb : ∀ k ∈ permutation, k < permutation.length) (hi : i < permutation.length) :
    (z_order_apply_permutation permutation arr d).getD (permutation.getD i 0) d =
      arr.getD i d := by
  have hmem : permutation.getD i 0 ∈ permutation := by
    rw [List.getD_eq_getElem?_getD, List.getElem?_eq_getElem hi]
    exact List.getElem_mem hi
  have hbound : permutation.getD i 0 < (List.replicate arr.length d).length := by
    simpa [hlen] using hb _ hmem
  exact scatter_getD permutation arr (List.replicate arr.length d) i d hnd hi
    (hlen ▸ hi) hbound

lemma Becker2009Elasticity.init_of_eq (env : SolverEnv) (kernel_radius : ℚ)
    (fluid : Fluid) (s : Becker2009Elasticity)
    (h : s.positions0.length = fluid.positions.length) :
    s.init env kernel_radius fluid = s :=
  if_neg fun hc => hc h

lemma Becker2009Elasticity.init_of_ne (env : SolverEnv) (kernel_radius : ℚ)
    (fluid : Fluid) (s : Becker2009Elasticity)
    (h : s.positions0.length ≠ fluid.positions.length) :
    s.init env kernel_radius fluid =
      { s with
        positions0 := fluid.positions,
        volumes0 := ((List.range fluid.positions.length).map fun i =>
          fluid.particle_mass i /
            (Becker2009Elasticity.accumulate_volumes0 fluid
              (Becker2009Elasticity.cache_contact_kernels env kernel_radius fluid.positions
                (compute_self_contacts kernel_radius fluid)).contacts
              (resize s.volumes0 fluid.positions.length 0)).getD i 0),
        rotations := resize s.rotations fluid.positions.length Mat.identity,
        deformation_gradient_tr :=
          resize s.deformation_gradient_tr fluid.positions.length Mat.identity,
        stress := resize s.stress fluid.positions.length SpatialVec.zeros,
        contacts0 := Becker2009Elasticity.cache_contact_kernels env kernel_radius
          fluid.positions (compute_self_contacts kernel_radius fluid) } :=
  if_pos h

/-! ## Claims -/

unseal Rat.mul Rat.inv Rat.ofScientific Rat.add Rat.sub in
/-- C1: the spec claims the live strain-scaling constant in `compute_stresses`
equals `0.5`.  The source binds `_0_5 := 0.564` and multiplies the strain by it
in both the linear and the nonlinear branch: a pure shear deformation gradient
`m12 = 1` with `d2 = 1` yields shear stress `0.564` (that is `141/250`), not
`0.5`, both directly in the material law and through the live
`compute_stresses` path. -/
theorem c1_live_stress_scale_is_0_564 :
    Becker2009Elasticity.stress_from_grad false 0 0 1 ⟨0, 1, 0, 0⟩ =
      ⟨0, 0, 141 / 250⟩ ∧
    Becker2009Elasticity.stress_from_grad true 0 0 1 ⟨0, 1, 0, 0⟩ =
      ⟨0, 0, 141 / 250⟩ ∧
    ((stateShear false).compute_stresses 1 fluidShear).stress.getD 0 SpatialVec.zeros =
      ⟨0, 0, 141 / 250⟩ ∧
    ((stateShear true).compute_stresses 1 fluidShear).stress.getD 0 SpatialVec.zeros =
      ⟨0, 0, 141 / 250⟩ ∧
    (141 / 250 : ℚ) = 0.564 ∧ (141 / 250 : ℚ) ≠ 0.5 := by
  decide

/-- C5: the three material coefficients computed at construction satisfy the
claimed closed forms for every Young modulus and every Poisson ratio in
`(-1, 1/2)`, they are what `new` stores, and neither `solve` nor
`apply_permutation` ever mutates them afterwards. -/
theorem c5_material_coefficients (young_modulus poisson_ratio : ℚ)
    (h1 : -1 < poisson_ratio) (h2 : poisson_ratio < 1 / 2) (b : Bool)
    (env : SolverEnv) (kernel_radius : ℚ) (fluid : Fluid)
    (s t : Becker2009Elasticity) (permutation : List ℕ) :
    elasticity_coefficients young_modulus poisson_ratio =
      (young_modulus * (1 - poisson_ratio) /
        ((1 + poisson_ratio) * (1 - 2 * poisson_ratio)),
       young_modulus * poisson_ratio /
        ((1 + poisson_ratio) * (1 - 2 * poisson_ratio)),
       young_modulus * (1 - 2 * poisson_ratio) /
        (2 * (1 + poisson_ratio) * (1 - 2 * poisson_ratio))) ∧
    (Becker2009Elasticity.new young_modulus poisson_ratio b).d0 =
      (elasticity_coefficients young_modulus poisson_ratio).1 ∧
    (Becker2009Elasticity.new young_modulus poisson_ratio b).d1 =
      (elasticity_coefficients young_modulus poisson_ratio).2.1 ∧
    (Becker2009Elasticity.new young_modulus poisson_ratio b).d2 =
      (elasticity_coefficients young_modulus poisson_ratio).2.2 ∧
    (Becker2009Elasticity.solve env kernel_radius fluid s).1.d0 = s.d0 ∧
    (Becker2009Elasticity.solve env kernel_radius fluid s).1.d1 = s.d1 ∧
    (Becker2009Elasticity.solve env kernel_radius fluid s).1.d2 = s.d2 ∧
    (t.apply_permutation permutation).d0 = t.d0 ∧
    (t.apply_permutation permutation).d1 = t.d1 ∧
    (t.apply_permutation permutation).d2 = t.d2 := by
  have hd : (s.init env kernel_radius fluid).d0 = s.d0 ∧
      (s.init env kernel_radius fluid).d1 = s.d1 ∧
      (s.init env kernel_radius fluid).d2 = s.d2 := by
    by_cases hc : s.positions0.length = fluid.positions.length
    · rw [Becker2009Elasticity.init_of_eq env kernel_radius fluid s hc]
      exact ⟨rfl, rfl, rfl⟩
    · rw [Becker2009Elasticity.init_of_ne env kernel_radius fluid s hc]
      exact ⟨rfl, rfl, rfl⟩
  exact ⟨rfl, rfl, rfl, rfl, hd.1, hd.2.1, hd.2.2, rfl, rfl, rfl⟩

/-- Witness for C5 at the concrete material `E = 2`, `ν = 1/4`. -/
theorem c5_material_coefficients_witness :
    elasticity_coefficients 2 (1 / 4) =
      (2 * (1 - 1 / 4) / ((1 + 1 / 4) * (1 - 2 * (1 / 4))),
       2 * (1 / 4) / ((1 + 1 / 4) * (1 - 2 * (1 / 4))),
       2 * (1 - 2 * (1 / 4)) / (2 * (1 + 1 / 4) * (1 - 2 * (1 / 4)))) :=
  (c5_material_coefficients 2 (1 / 4) (by norm_num) (by norm_num) false testEnv 1 fluidA
    (Becker2009Elasticity.new 1 0 false) (Becker2009Elasticity.new 1 0 false) [0]).1

/-- C6: the spiky kernel's weight and radial derivative match the claimed
closed forms, with the dimension-dependent normalizer `15/(π h^6)` in 3D and
`10/(π h^5)` in 2D; both vanish beyond the support and the weight is
nonnegative on the support. -/
theorem c6_spiky_kernel_formulas (r h : ℝ) (hr : 0 ≤ r) (hh : 0 < h) :
    (SpikyKernel.scalar_apply Dim.three r h =
      if r ≤ h then 15 / (Real.pi * h ^ 6) * (h - r) ^ 3 else 0) ∧
    (SpikyKernel.scalar_apply Dim.two r h =
      if r ≤ h then 10 / (Real.pi * h ^ 5) * (h - r) ^ 3 else 0) ∧
    (SpikyKernel.scalar_apply_diff Dim.three r h =
      if r ≤ h then -(3 * (15 / (Real.pi * h ^ 6))) * (h - r) ^ 2 else 0) ∧
    (SpikyKernel.scalar_apply_diff Dim.two r h =
      if r ≤ h then -(3 * (10 / (Real.pi * h ^ 5))) * (h - r) ^ 2 else 0) ∧
    (h < r → SpikyKernel.scalar_apply Dim.two r h = 0 ∧
      SpikyKernel.scalar_apply Dim.three r h = 0 ∧
      SpikyKernel.scalar_apply_diff Dim.two r h = 0 ∧
      SpikyKernel.scalar_apply_diff Dim.three r h = 0) ∧
    (r ≤ h → 0 ≤ SpikyKernel.scalar_apply Dim.two r h ∧
      0 ≤ SpikyKernel.scalar_apply Dim.three r h) := by
  refine ⟨rfl, rfl, ?_, ?_, ?_, ?_⟩
  · by_cases hrh : r ≤ h
    · simp only [SpikyKernel.scalar_apply_diff, spiky_normalizer, if_pos hrh]
      ring
    · simp [SpikyKernel.scalar_apply_diff, hrh]
  · by_cases hrh : r ≤ h
    · simp only [SpikyKernel.scalar_apply_diff, spiky_normalizer, if_pos hrh]
      ring
    · simp [SpikyKernel.scalar_apply_diff, hrh]
  · intro hlt
    have hn : ¬r ≤ h := not_le.mpr hlt
    exact ⟨by simp [SpikyKernel.scalar_apply, hn], by simp [SpikyKernel.scalar_apply, hn],
      by simp [SpikyKernel.scalar_apply_diff, hn], by simp [SpikyKernel.scalar_apply_diff, hn]⟩
  · intro hrh
    constructor
    · rw [SpikyKernel.scalar_apply, if_pos hrh]
      have hN : 0 ≤ spiky_normalizer Dim.two h := by
        simp only [spiky_normalizer]
        positivity
      exact mul_nonneg hN (pow_nonneg (sub_nonneg.mpr hrh) 3)
    · rw [SpikyKernel.scalar_apply, if_pos hrh]
      have hN : 0 ≤ spiky_normalizer Dim.three h := by
        simp only [spiky_normalizer]
        positivity
      exact mul_nonneg hN (pow_nonneg (sub_nonneg.mpr hrh) 3)

/-- Witness for C6 at `r = 1`, `h = 2`. -/
theorem c6_spiky_kernel_formulas_witness :
    SpikyKernel.scalar_apply Dim.three 1 2 =
      if (1 : ℝ) ≤ 2 then 15 / (Real.pi * 2 ^ 6) * (2 - 1) ^ 3 else 0 :=
  (c6_spiky_kernel_formulas 1 2 (by norm_num) (by norm_num)).1

/-- C7 counterexample: the claim says a non-positive support radius `h ≤ 0`
fails fast via an assertion-style abort; at `r = 0`, `h = -1` both kernel
functions return a value (no abort) even though `h ≤ 0`. -/
theorem c7_counterexample_h_unchecked :
    (SpikyKernel.scalar_apply_checked Dim.three 0 (-1)).isSome = true ∧
    (SpikyKernel.scalar_apply_diff_checked Dim.three 0 (-1)).isSome = true ∧
    ((-1 : ℝ) ≤ 0) := by
  refine ⟨?_, ?_, by norm_num⟩ <;>
    simp [SpikyKernel.scalar_apply_checked, SpikyKernel.scalar_apply_diff_checked]

/-- C7 (amended): only the distance is checked — calling either kernel
function with `r < 0` aborts via the assertion, and for every `r ≥ 0` neither
function aborts, for every support radius `h` (including `h ≤ 0`, which the
source never checks). -/
theorem c7_assert_only_on_r (d : Dim) (r h : ℝ) :
    (r < 0 → SpikyKernel.scalar_apply_checked d r h = none ∧
      SpikyKernel.scalar_apply_diff_checked d r h = none) ∧
    (0 ≤ r → SpikyKernel.scalar_apply_checked d r h =
        some (SpikyKernel.scalar_apply d r h) ∧
      SpikyKernel.scalar_apply_diff_checked d r h =
        some (SpikyKernel.scalar_apply_diff d r h)) := by
  constructor
  · intro hr
    have hn : ¬0 ≤ r := not_le.mpr hr
    exact ⟨by simp [SpikyKernel.scalar_apply_checked, hn],
      by simp [SpikyKernel.scalar_apply_diff_checked, hn]⟩
  · intro hr
    exact ⟨by simp [SpikyKernel.scalar_apply_checked, hr],
      by simp [SpikyKernel.scalar_apply_diff_checked, hr]⟩

/-- Witness for the amended C7 at `r = -1` (aborts) and `r = 1`, `h = -1`
(does not abort despite the non-positive radius). -/
theorem c7_assert_only_on_r_witness :
    SpikyKernel.scalar_apply_checked Dim.three (-1) 1 = none ∧
    SpikyKernel.scalar_apply_checked Dim.three 1 (-1) =
      some (SpikyKernel.scalar_apply Dim.three 1 (-1)) :=
  ⟨((c7_assert_only_on_r Dim.three (-1) 1).1 (by norm_num)).1,
   ((c7_assert_only_on_r Dim.three 1 (-1)).2 (by norm_num)).1⟩

lemma outer_mul_smul (v w : Vect) (k : ℚ) : Vect.outer v (w * k) = k • Vect.outer v w := by
  show Mat.mk (v.x * (w.x * k)) (v.x * (w.y * k)) (v.y * (w.x * k)) (v.y * (w.y * k)) =
    Mat.mk (k * (v.x * w.x)) (k * (v.x * w.y)) (k * (v.y * w.x)) (k * (v.y * w.y))
  simp only [Mat.mk.injEq]
  exact ⟨by ring, by ring, by ring, by ring⟩

/-- C3: for every particle `i`, `compute_rotations` hands the polar
decomposition exactly the correlation matrix
`A = Σ_j weight(i,j) · mass(j) · (p_j − p_i) ⊗ (p0_j − p0_i)` accumulated over
`i`'s contacts, with a fixed iteration budget of `20`, tolerance
`Real::default_epsilon()`, and the particle's previous rotation as the seed. -/
theorem c3_rotation_extraction (env : SolverEnv) (kernel_radius : ℚ) (fluid : Fluid)
    (s : Becker2009Elasticity) (i : ℕ) (hi : i < s.rotations.length) :
    (s.compute_rotations env kernel_radius fluid).rotations.getD i Mat.identity =
      env.from_matrix_eps
        (((s.contacts0.particle_contacts i).map fun c =>
          (c.weight * fluid.particle_mass c.j) •
            Vect.outer (fluid.positions.getD c.j 0 - fluid.positions.getD c.i 0)
              (s.positions0.getD c.j 0 - s.positions0.getD c.i 0)).sum)
        env.default_epsilon 20 (s.rotations.getD i Mat.identity) := by
  have h3 : Becker2009Elasticity.a_pq_at fluid s i =
      ((s.contacts0.particle_contacts i).map fun c =>
        (c.weight * fluid.particle_mass c.j) •
          Vect.outer (fluid.positions.getD c.j 0 - fluid.positions.getD c.i 0)
            (s.positions0.getD c.j 0 - s.positions0.getD c.i 0)).sum := by
    have h2 : Becker2009Elasticity.a_pq_at fluid s i =
        0 + ((s.contacts0.particle_contacts i).map fun c =>
          Vect.outer (fluid.positions.getD c.j 0 - fluid.positions.getD c.i 0)
            ((s.positions0.getD c.j 0 - s.positions0.getD c.i 0) *
              (c.weight * fluid.particle_mass c.j))).sum :=
      foldl_add_map _ _ _
    rw [h2, zero_add]
    simp only [outer_mul_smul]
  calc (s.compute_rotations env kernel_radius fluid).rotations.getD i Mat.identity
      = ((List.range s.rotations.length).map fun i =>
          env.from_matrix_eps (Becker2009Elasticity.a_pq_at fluid s i) env.default_epsilon 20
            (s.rotations.getD i Mat.identity)).getD i Mat.identity := rfl
    _ = env.from_matrix_eps (Becker2009Elasticity.a_pq_at fluid s i) env.default_epsilon 20
          (s.rotations.getD i Mat.identity) := getD_range_map _ _ _ _ hi
    _ = _ := by rw [h3]

/-- Witness for C3 on the concrete shear configuration at particle `0`. -/
theorem c3_rotation_extraction_witness :
    ((stateShear false).compute_rotations testEnv 1 fluidShear).rotations.getD 0 Mat.identity =
      testEnv.from_matrix_eps
        ((((stateShear false).contacts0.particle_contacts 0).map fun c =>
          (c.weight * fluidShear.particle_mass c.j) •
            Vect.outer (fluidShear.positions.getD c.j 0 - fluidShear.positions.getD c.i 0)
              ((stateShear false).positions0.getD c.j 0 -
                (stateShear false).positions0.getD c.i 0)).sum)
        testEnv.default_epsilon 20 ((stateShear false).rotations.getD 0 Mat.identity) :=
  c3_rotation_extraction testEnv 1 fluidShear (stateShear false) 0 (by decide)

/-- C4: `solve` accumulates additively into the acceleration slot of every
particle: the final acceleration is the prior acceleration plus the sum, over
the particle's contacts, of the per-contact force contribution divided by
`volumes[i] * density0`. -/
theorem c4_force_accumulation (env : SolverEnv) (kernel_radius : ℚ) (fluid : Fluid)
    (s : Becker2009Elasticity) (i : ℕ) (hi : i < fluid.accelerations.length) :
    (Becker2009Elasticity.solve env kernel_radius fluid s).2.accelerations.getD i 0 =
      fluid.accelerations.getD i 0 +
      (((s.solve_state env kernel_radius fluid).contacts0.particle_contacts i).map fun c =>
        Becker2009Elasticity.force_on (s.solve_state env kernel_radius fluid) c /
          (fluid.volumes.getD i 0 * fluid.density0)).sum := by
  calc (Becker2009Elasticity.solve env kernel_radius fluid s).2.accelerations.getD i 0
      = ((List.range fluid.accelerations.length).map fun i =>
          ((s.solve_state env kernel_radius fluid).contacts0.particle_contacts i).foldl
            (fun acceleration c => acceleration +
              Becker2009Elasticity.force_on (s.solve_state env kernel_radius fluid) c /
                (fluid.volumes.getD i 0 * fluid.density0))
            (fluid.accelerations.getD i 0)).getD i 0 := rfl
    _ = ((s.solve_state env kernel_radius fluid).contacts0.particle_contacts i).foldl
          (fun acceleration c => acceleration +
            Becker2009Elasticity.force_on (s.solve_state env kernel_radius fluid) c /
              (fluid.volumes.getD i 0 * fluid.density0))
          (fluid.accelerations.getD i 0) := getD_range_map _ _ _ _ hi
    _ = _ := foldl_add_map _ _ _

/-- Witness for C4 on `fluidB` at particle `0`. -/
theorem c4_force_accumulation_witness :
    (Becker2009Elasticity.solve testEnv 2 fluidB
        (Becker2009Elasticity.new 1 0 false)).2.accelerations.getD 0 0 =
      fluidB.accelerations.getD 0 0 +
      ((((Becker2009Elasticity.new 1 0 false).solve_state testEnv 2
          fluidB).contacts0.particle_contacts 0).map fun c =>
        Becker2009Elasticity.force_on
          ((Becker2009Elasticity.new 1 0 false).solve_state testEnv 2 fluidB) c /
          (fluidB.volumes.getD 0 0 * fluidB.density0)).sum :=
  c4_force_accumulation testEnv 2 fluidB (Becker2009Elasticity.new 1 0 false) 0 (by decide)

/-- C8: a `solve` on an already-initialized state with unchanged particle
count leaves the rest positions, rest volumes and the contact graph (with its
cached weights and gradients) exactly unchanged — the graph is never rebuilt. -/
theorem c8_rest_state_frozen (env : SolverEnv) (kernel_radius : ℚ) (fluid : Fluid)
    (s : Becker2009Elasticity) (h : s.positions0.length = fluid.positions.length) :
    (Becker2009Elasticity.solve env kernel_radius fluid s).1.positions0 = s.positions0 ∧
    (Becker2009Elasticity.solve env kernel_radius fluid s).1.volumes0 = s.volumes0 ∧
    (Becker2009Elasticity.solve env kernel_radius fluid s).1.contacts0 = s.contacts0 := by
  have hinit : s.init env kernel_radius fluid = s :=
    Becker2009Elasticity.init_of_eq env kernel_radius fluid s h
  refine ⟨?_, ?_, ?_⟩
  · show (s.init env kernel_radius fluid).positions0 = s.positions0
    rw [hinit]
  · show (s.init env kernel_radius fluid).volumes0 = s.volumes0
    rw [hinit]
  · show (s.init env kernel_radius fluid).contacts0 = s.contacts0
    rw [hinit]

/-- Witness for C8: a second `solve` on `stateB` (already initialized for two
particles) with the two-particle fluid keeps all rest-state fields. -/
theorem c8_rest_state_frozen_witness :
    (Becker2009Elasticity.solve testEnv 2 fluidB stateB).1.positions0 = stateB.positions0 ∧
    (Becker2009Elasticity.solve testEnv 2 fluidB stateB).1.volumes0 = stateB.volumes0 ∧
    (Becker2009Elasticity.solve testEnv 2 fluidB stateB).1.contacts0 = stateB.contacts0 :=
  c8_rest_state_frozen testEnv 2 fluidB stateB (by decide)

lemma resize_nil {α : Type _} (n : ℕ) (d : α) :
    resize ([] : List α) n d = List.replicate n d := by
  simp [resize]

/-- C2 (amended): lazy initialization runs iff the particle count differs from
the cached rest array length; when it runs starting from an empty rest-volume
array (the state `new` produces), it snapshots the positions, builds the
contact graph over them, and sets
`rest_volume[i] = mass(i) / Σ_j∈neighbors(i) mass(j)·weight(i,j)` with the
denominator accumulated symmetrically over both endpoints of each stored
contact.  (On a re-initialization the retained prefix of the old rest volumes
leaks into the denominators, so the unconditional claim fails — see the
counterexample.) -/
theorem c2_lazy_init (env : SolverEnv) (kernel_radius : ℚ) (fluid : Fluid)
    (s : Becker2009Elasticity) :
    (s.positions0.length = fluid.positions.length →
      s.init env kernel_radius fluid = s) ∧
    (s.positions0.length ≠ fluid.positions.length → s.volumes0 = [] →
      (s.init env kernel_radius fluid).positions0 = fluid.positions ∧
      (s.init env kernel_radius fluid).contacts0 =
        Becker2009Elasticity.cache_contact_kernels env kernel_radius fluid.positions
          (compute_self_contacts kernel_radius fluid) ∧
      ∀ i, i < fluid.positions.length →
        (s.init env kernel_radius fluid).volumes0.getD i 0 =
          fluid.particle_mass i /
            (((s.init env kernel_radius fluid).contacts0.particle_contacts i).map fun c =>
              fluid.particle_mass c.j * c.weight).sum) := by
  constructor
  · intro h
    exact Becker2009Elasticity.init_of_eq env kernel_radius fluid s h
  · intro hne hv0
    rw [Becker2009Elasticity.init_of_ne env kernel_radius fluid s hne]
    refine ⟨rfl, rfl, ?_⟩
    intro i hi
    have hmem : ∀ c ∈ (Becker2009Elasticity.cache_contact_kernels env kernel_radius
        fluid.positions (compute_self_contacts kernel_radius fluid)).contacts,
        c.i < fluid.positions.length ∧ c.j < fluid.positions.length ∧ c.i ≠ c.j := by
      intro c hc
      obtain ⟨c', hc', hii, hjj⟩ :=
        cache_contact_kernels_mem env kernel_radius fluid.positions _ c hc
      obtain ⟨h1, h2, hlt⟩ := compute_self_contacts_mem kernel_radius fluid c' hc'
      exact ⟨hii ▸ h1, hjj ▸ h2, by rw [hii, hjj]; exact Nat.ne_of_lt hlt⟩
    have hb : ∀ c ∈ (Becker2009Elasticity.cache_contact_kernels env kernel_radius
        fluid.positions (compute_self_contacts kernel_radius fluid)).contacts,
        c.i < (List.replicate fluid.positions.length (0 : ℚ)).length ∧
        c.j < (List.replicate fluid.positions.length (0 : ℚ)).length := by
      intro c hc
      rw [List.length_replicate]
      exact ⟨(hmem c hc).1, (hmem c hc).2.1⟩
    have hsum := particle_contacts_weight_sum fluid
      (Becker2009Elasticity.cache_contact_kernels env kernel_radius fluid.positions
        (compute_self_contacts kernel_radius fluid)).contacts i
      (fun c hc => (hmem c hc).2.2)
    have heta : ParticlesContacts.mk (Becker2009Elasticity.cache_contact_kernels env
        kernel_radius fluid.positions (compute_self_contacts kernel_radius fluid)).contacts =
        Becker2009Elasticity.cache_contact_kernels env kernel_radius fluid.positions
          (compute_self_contacts kernel_radius fluid) := rfl
    rw [heta] at hsum
    show ((List.range fluid.positions.length).map fun i =>
      fluid.particle_mass i /
        (Becker2009Elasticity.accumulate_volumes0 fluid _
          (resize s.volumes0 fluid.positions.length 0)).getD i 0).getD i 0 = _
    rw [getD_range_map _ _ _ _ hi, hv0, resize_nil,
      accumulate_volumes0_getD fluid _ _ i hb, hsum, getD_replicate]
    simp

unseal Rat.mul Rat.inv Rat.ofScientific Rat.add Rat.sub in
/-- C2 counterexample: on a second lazy initialization (particle count changed
from two to three), `Vec::resize` keeps the previously computed rest volumes,
and the accumulation adds onto them: particle 0's rest volume comes out `1/3`
instead of the claimed `mass / Σ mass·weight = 1/2`. -/
theorem c2_counterexample_stale_reinit :
    stateB.positions0.length ≠ fluidC.positions.length ∧
    stateBC.volumes0.getD 0 0 ≠
      fluidC.particle_mass 0 /
        ((stateBC.contacts0.particle_contacts 0).map
          fun c => fluidC.particle_mass c.j * c.weight).sum := by
  decide

/-- Witness for C2 on the first initialization of a fresh solver over the
two-particle fluid. -/
theorem c2_lazy_init_witness :
    ((Becker2009Elasticity.new 1 0 false).init testEnv 2 fluidB).volumes0.getD 0 0 =
      fluidB.particle_mass 0 /
        ((((Becker2009Elasticity.new 1 0 false).init testEnv 2
          fluidB).contacts0.particle_contacts 0).map fun c =>
          fluidB.particle_mass c.j * c.weight).sum :=
  ((c2_lazy_init testEnv 2 fluidB (Becker2009Elasticity.new 1 0 false)).2 (by decide)
    rfl).2.2 0 (by decide)

lemma scatter_length {α : Type _} (ps : List ℕ) (as : List α) (out : List α) :
    ((ps.zip as).foldl (fun o pa => o.set pa.1 pa.2) out).length = out.length := by
  induction ps generalizing as out with
  | nil => rfl
  | cons q ps ih =>
    cases as with
    | nil => rfl
    | cons a as =>
      rw [List.zip_cons_cons, List.foldl_cons, ih]
      exact List.length_set out q a

lemma z_order_apply_permutation_length {α : Type _} (permutation : List ℕ)
    (arr : List α) (d : α) :
    (z_order_apply_permutation permutation arr d).length = arr.length := by
  rw [z_order_apply_permutation, scatter_length]
  exact List.length_replicate arr.length d

/-- C9: under a bijective index mapping of the correct length,
`apply_permutation` reindexes exactly `volumes0`, `positions0` and `rotations`
(slot `permutation[i]` of the result holds old slot `i`), remaps every
contact's endpoints through the same bijection, and leaves
`deformation_gradient_tr` and `stress` completely unmodified. -/
theorem c9_apply_permutation (permutation : List ℕ) (s : Becker2009Elasticity) (i : ℕ)
    (hnd : permutation.Nodup) (hb : ∀ k ∈ permutation, k < permutation.length)
    (h1 : permutation.length = s.volumes0.length)
    (h2 : permutation.length = s.positions0.length)
    (h3 : permutation.length = s.rotations.length)
    (hi : i < permutation.length) :
    (s.apply_permutation permutation).volumes0.getD (permutation.getD i 0) 0 =
      s.volumes0.getD i 0 ∧
    (s.apply_permutation permutation).positions0.getD (permutation.getD i 0) 0 =
      s.positions0.getD i 0 ∧
    (s.apply_permutation permutation).rotations.getD (permutation.getD i 0) Mat.identity =
      s.rotations.getD i Mat.identity ∧
    (s.apply_permutation permutation).contacts0.contacts =
      s.contacts0.contacts.map (fun c =>
        { c with i := permutation.getD c.i 0, j := permutation.getD c.j 0 }) ∧
    (s.apply_permutation permutation).volumes0.length = s.volumes0.length ∧
    (s.apply_permutation permutation).positions0.length = s.positions0.length ∧
    (s.apply_permutation permutation).rotations.length = s.rotations.length ∧
    (s.apply_permutation permutation).deformation_gradient_tr =
      s.deformation_gradient_tr ∧
    (s.apply_permutation permutation).stress = s.stress :=
  ⟨z_order_apply_permutation_getD permutation s.volumes0 0 i hnd h1 hb hi,
   z_order_apply_permutation_getD permutation s.positions0 0 i hnd h2 hb hi,
   z_order_apply_permutation_getD permutation s.rotations Mat.identity i hnd h3 hb hi,
   rfl,
   z_order_apply_permutation_length permutation s.volumes0 0,
   z_order_apply_permutation_length permutation s.positions0 0,
   z_order_apply_permutation_length permutation s.rotations Mat.identity,
   rfl, rfl⟩

/-- Witness for C9: the swap permutation `[1, 0]` applied to the initialized
two-particle state. -/
theorem c9_apply_permutation_witness :
    (stateB.apply_permutation [1, 0]).volumes0.getD ([1, 0].getD 0 0) 0 =
      stateB.volumes0.getD 0 0 ∧
    (stateB.apply_permutation [1, 0]).positions0.getD ([1, 0].getD 0 0) 0 =
      stateB.positions0.getD 0 0 ∧
    (stateB.apply_permutation [1, 0]).rotations.getD ([1, 0].getD 0 0) Mat.identity =
      stateB.rotations.getD 0 Mat.identity ∧
    (stateB.apply_permutation [1, 0]).contacts0.contacts =
      stateB.contacts0.contacts.map (fun c =>
        { c with i := [1, 0].getD c.i 0, j := [1, 0].getD c.j 0 }) ∧
    (stateB.apply_permutation [1, 0]).volumes0.length = stateB.volumes0.length ∧
    (stateB.apply_permutation [1, 0]).positions0.length = stateB.positions0.length ∧
    (stateB.apply_permutation [1, 0]).rotations.length = stateB.rotations.length ∧
    (stateB.apply_permutation [1, 0]).deformation_gradient_tr =
      stateB.deformation_gradient_tr ∧
    (stateB.apply_permutation [1, 0]).stress = stateB.stress :=
  c9_apply_permutation [1, 0] stateB 0 (by decide) (by decide) (by decide) (by decide)
    (by decide) (by decide)

unseal Rat.mul Rat.inv Rat.ofScientific Rat.add Rat.sub in
/-- C10: the rest-volume division in lazy initialization is unguarded — for
the one-particle fluid `fluidA` the contact list of particle 0 is empty, the
accumulated denominator stays `0`, and `solve` (which triggers the lazy
initialization) computes `rest_volume[0] = particle_mass(0) / 0` with a
nonzero numerator. -/
theorem c10_division_by_zero_reachable :
    (Becker2009Elasticity.new 1 0 false).positions0.length ≠ fluidA.positions.length ∧
    ((Becker2009Elasticity.solve testEnv 2 fluidA
      (Becker2009Elasticity.new 1 0 false)).1.contacts0.particle_contacts 0) = [] ∧
    fluidA.particle_mass 0 ≠ 0 ∧
    (Becker2009Elasticity.accumulate_volumes0 fluidA
      (Becker2009Elasticity.solve testEnv 2 fluidA
        (Becker2009Elasticity.new 1 0 false)).1.contacts0.contacts
      (List.replicate fluidA.positions.length 0)).getD 0 0 = 0 ∧
    (Becker2009Elasticity.solve testEnv 2 fluidA
      (Becker2009Elasticity.new 1 0 false)).1.volumes0 = [fluidA.particle_mass 0 / 0] := by
  decide
